import Mathlib

/-!
Verification of the step-execution and orchestration framework of the
mne-bids-pipeline study repository, against its natural-language design
specification.  Definitions are shallow embeddings of:

  * `config.py`                         — global study settings and load-time checks;
  * `04-make_epochs.py`                 — the epoching script (old style: no fault
                                          boundary, no cache decision, direct
                                          iteration over `subjects_list`);
  * `scripts/source/_04_make_forward.py`— the forward-solution step (new style:
                                          `get_config` snapshot, input resolver,
                                          `failsafe_run` decorated body).

Helpers the forward step imports from the `config` module (`failsafe_run`,
`get_subjects`, `get_sessions`, `_get_bem_conductivity`, the config getters) are
absent from the sources; those are modelled from the specification and marked
as such in their doc comments.
-/

set_option autoImplicit false

deriving instance DecidableEq for Except

namespace MBP

/-! ## Global settings of `config.py` (the concrete shipped values) -/

/-- Embedding of `config.plot = False` (config.py line 19). -/
def plot : Bool := false

/-- Embedding of `config.study_path = 'data/'` (config.py line 35). -/
def study_path : String := "data/"

/-- Embedding of `config.subjects_dir = os.path.join(study_path, 'subjects')`
(config.py line 40); `os.path.join('data/', 'subjects') = 'data/subjects'`. -/
def subjects_dir : String := "data/subjects"

/-- Embedding of `config.meg_dir = os.path.join(study_path, 'MEG')`
(config.py line 46). -/
def meg_dir : String := "data/MEG"

/-- Embedding of `config.study_name = 'Localizer'` (config.py line 59). -/
def study_name : String := "Localizer"

/-- Embedding of `config.subjects_list` as finally bound (config.py line 72:
the second assignment overwrites the eleven-subject list). -/
def subjects_list : List String := ["SB01"]

/-- Embedding of `config.exclude_subjects = []` (config.py line 83). -/
def exclude_subjects : List String := []

/-- Embedding of `config.runs = ['']` (config.py line 95). -/
def runs : List String := [""]

/-- Embedding of `config.ch_types = ['meg']` (config.py line 108). -/
def ch_types : List String := ["meg"]

/-- Embedding of `config.use_maxwell_filter = True` (config.py line 228). -/
def use_maxwell_filter : Bool := true

/-- Embedding of `config.use_ssp = False` (config.py line 497). -/
def use_ssp : Bool := false

/-- Embedding of `config.use_ica = True` (config.py line 502). -/
def use_ica : Bool := true

/-- Embedding of `config.N_JOBS = 1` (config.py line 654). -/
def N_JOBS : Nat := 1

/-! ## C7: worker-pool reduction in `04-make_epochs.py` -/

/-- Embedding of `N_JOBS = max(config.N_JOBS // 4, 1)` (04-make_epochs.py
line 22); Python `//` on non-negative integers is `Nat` division. -/
def epochs_N_JOBS (n : Nat) : Nat := max (n / 4) 1

/-- The pool size the epoching script actually uses, at the shipped
`config.N_JOBS` value. -/
def epochs_pool : Nat := epochs_N_JOBS N_JOBS

/-! ## C8: load-time consistency checks of `config.py` -/

/-- Embedding of `set(ch_types).intersection(('meg', 'grad', 'mag'))` being
non-empty, as a Boolean over the list (config.py lines 681–682): the Python
intersection is empty iff no element of `ch_types` is one of the three. -/
def has_meg_channels (chs : List String) : Bool :=
  chs.any fun c => c == "meg" || c == "grad" || c == "mag"

/-- Embedding of the CHECKS block of `config.py` (lines 681–686): the first
failing check raises `ValueError` with its message; when neither condition
holds the module finishes loading.  These statements execute at module import
time, before any per-subject work is dispatched. -/
def config_checks (mf : Bool) (chs : List String) (ssp ica : Bool) :
    Except String Unit :=
  if mf && !(has_meg_channels chs) then
    Except.error "Cannot use maxwell filter without MEG channels."
  else if ssp && ica then
    Except.error "Cannot use both SSP and ICA."
  else
    Except.ok ()

/-! ## C9: load-time directory creation of `config.py` -/

/-- A filesystem abstracted to the list of directory paths that exist. -/
abbrev DirState := List String

/-- Embedding of the module-load effect of `config.py` lines 627–631:
`os.mkdir(study_path)` when `not os.path.isdir(study_path)`, then
`os.mkdir(subjects_dir)` when `not os.path.isdir(subjects_dir)`.  No other
statement of the module touches the filesystem. -/
def module_load_mkdirs (fs : DirState) : DirState :=
  let fs1 : List String := if study_path ∈ fs then fs else fs ++ [study_path]
  if subjects_dir ∈ fs1 then fs1 else fs1 ++ [subjects_dir]

/-! ## Claim C7 -/

/-- Claim C7: for every configured `N_JOBS ≥ 1`, the epoching script's reduced
pool size `max(N_JOBS // 4, 1)` is at least 1, at most `N_JOBS`, and strictly
below `N_JOBS` whenever `N_JOBS ≥ 5`. -/
theorem epochs_pool_bounds (n : Nat) (h : 1 ≤ n) :
    1 ≤ epochs_N_JOBS n ∧ epochs_N_JOBS n ≤ n ∧ (5 ≤ n → epochs_N_JOBS n < n) := by
  unfold epochs_N_JOBS
  omega

/-- Concrete instantiation of `epochs_pool_bounds` at `N_JOBS = 8`. -/
theorem epochs_pool_bounds_witness :
    1 ≤ epochs_N_JOBS 8 ∧ epochs_N_JOBS 8 ≤ 8 ∧ (5 ≤ 8 → epochs_N_JOBS 8 < 8) :=
  epochs_pool_bounds 8 (by decide)

/-! ## Claim C8 -/

/-- Claim C8: loading the configuration module raises a `ValueError` exactly
when `use_maxwell_filter` is set while `ch_types` contains none of
`meg`/`grad`/`mag`, or when `use_ssp` and `use_ica` are both set; every other
combination of these settings loads without raising. -/
theorem config_checks_iff (mf : Bool) (chs : List String) (ssp ica : Bool) :
    (∃ msg, config_checks mf chs ssp ica = Except.error msg) ↔
      ((mf = true ∧ ∀ c ∈ chs, c ≠ "meg" ∧ c ≠ "grad" ∧ c ≠ "mag") ∨
        (ssp = true ∧ ica = true)) := by
  have hmeg : has_meg_channels chs = false ↔
      ∀ c ∈ chs, c ≠ "meg" ∧ c ≠ "grad" ∧ c ≠ "mag" := by
    simp [has_meg_channels, List.any_eq_false, not_or, and_assoc]
  rcases Bool.eq_false_or_eq_true (has_meg_channels chs) with hch | hch <;>
    cases mf <;> cases ssp <;> cases ica <;>
    simp_all [config_checks]

/-! ## Claim C9 -/

/-- Claim C9: loading the configuration module creates `study_path` and
`subjects_dir` when absent, and touches no other filesystem location: any
other path exists afterwards iff it existed before. -/
theorem module_load_mkdirs_frame (fs : DirState) (p : String)
    (hp1 : p ≠ study_path) (hp2 : p ≠ subjects_dir) :
    study_path ∈ module_load_mkdirs fs ∧
      subjects_dir ∈ module_load_mkdirs fs ∧
      (p ∈ module_load_mkdirs fs ↔ p ∈ fs) := by
  unfold module_load_mkdirs
  have hne : subjects_dir ≠ study_path := by decide
  by_cases h1 : study_path ∈ fs <;> by_cases h2 : subjects_dir ∈ fs <;>
    simp_all [List.mem_append, hne]

/-- Concrete instantiation of `module_load_mkdirs_frame` on the empty
filesystem and an unrelated path. -/
theorem module_load_mkdirs_frame_witness :
    study_path ∈ module_load_mkdirs [] ∧
      subjects_dir ∈ module_load_mkdirs [] ∧
      ("data/MEG" ∈ module_load_mkdirs [] ↔ "data/MEG" ∈ ([] : DirState)) :=
  module_load_mkdirs_frame [] "data/MEG" (by decide) (by decide)

/-! ## Orchestration data model (spec §3, §4.3–4.4)

The implementation of `failsafe_run` — the fault-isolating boundary and the
cache/freshness decision it wraps — is imported by
`scripts/source/_04_make_forward.py` from the `config` module but is absent
from the sources; only its call sites appear.  The definitions below marked
`Modelled from the spec:` embed that missing machinery from the
specification's words. -/

/-- Terminal status of one (step, WorkUnit) execution (spec §3,
OutcomeRecord). -/
inductive Status
  | success
  | skipped
  | failed
  deriving DecidableEq, Repr

/-- The error taxonomy of spec §7. -/
inductive ErrorKind
  | missingInput
  | computation
  | outputWrite
  | unclassified
  deriving DecidableEq, Repr

/-- An error raised inside a step body, carrying its message. -/
inductive StepError
  | missingInput (msg : String)
  | computation (msg : String)
  | outputWrite (msg : String)
  | other (msg : String)
  deriving DecidableEq, Repr

/-- Modelled from the spec: the runner classifies a caught step-body error
into one of the error kinds of §7 (at minimum MissingInputError,
ComputationError, OutputWriteError, Unclassified). -/
def classify : StepError → ErrorKind
  | .missingInput _ => .missingInput
  | .computation _ => .computation
  | .outputWrite _ => .outputWrite
  | .other _ => .unclassified

/-- The raw message retained from a step-body error (spec §7: retained for
diagnosis). -/
def errMessage : StepError → String
  | .missingInput m => m
  | .computation m => m
  | .outputWrite m => m
  | .other m => m

/-- One outcome record per (step, WorkUnit), as in spec §3. -/
structure OutcomeRecord where
  subject : String
  session : Option String
  status : Status
  errKind : Option ErrorKind
  message : Option String
  deriving DecidableEq, Repr

/-- A filesystem abstracted to the modification time of each existing
artifact path: an association list from path to mtime. -/
abbrev FSState := List (String × Nat)

/-- Modification time of a path: `some t` when the artifact exists with
mtime `t`, `none` when it does not exist. -/
def mtime : FSState → String → Option Nat
  | [], _ => none
  | e :: es, p => if e.1 = p then some e.2 else mtime es p

/-- Writing (or overwriting) an artifact stamps it with the current clock
time, the way saving a file updates its mtime. -/
def set_mtime : FSState → String → Nat → FSState
  | [], p, t => [(p, t)]
  | e :: es, p, t => if e.1 = p then (p, t) :: es else e :: set_mtime es p t

/-- A step body persisting its declared outputs stamps each of them at the
clock time `t` of the run (spec §6: one artifact per declared logical output
name). -/
def write_outputs : FSState → List String → Nat → FSState
  | fs, [], _ => fs
  | fs, o :: os, t => write_outputs (set_mtime fs o t) os t

theorem mtime_set_mtime (fs : FSState) (p q : String) (t : Nat) :
    mtime (set_mtime fs p t) q = if p = q then some t else mtime fs q := by
  induction fs with
  | nil => simp [set_mtime, mtime]
  | cons e es ih =>
    by_cases he : e.1 = p <;> by_cases hpq : p = q <;>
      simp_all [set_mtime, mtime]

theorem mtime_write_outputs (outs : List String) (fs : FSState) (t : Nat)
    (q : String) :
    mtime (write_outputs fs outs t) q = if q ∈ outs then some t else mtime fs q := by
  induction outs generalizing fs with
  | nil => simp [write_outputs]
  | cons o os ih =>
    show mtime (write_outputs (set_mtime fs o t) os t) q = _
    rw [ih, mtime_set_mtime]
    rcases eq_or_ne q o with rfl | hqo
    · by_cases hos : q ∈ os <;> simp [hos]
    · by_cases hos : q ∈ os <;> simp [hos, hqo, Ne.symm hqo]

/-- The freshness verdict of spec §3: derived, never persisted. -/
inductive FreshnessVerdict
  | stale
  | current
  deriving DecidableEq, Repr

/-- One declared output is current when it exists and is not older (by
modification time) than any declared input that exists. -/
def artifact_current (fs : FSState) (ins : List String) (o : String) : Bool :=
  match mtime fs o with
  | none => false
  | some t =>
      ins.all fun i =>
        match mtime fs i with
        | none => true
        | some ti => ti ≤ t

/-- Modelled from the spec: the Cache/Freshness Decision
`decide(inputs, outputs_expected)` of §4.3, absent from the sources (it lives
inside the imported `failsafe_run` machinery).  Policy: CURRENT iff every
declared output exists AND is not older (by modification time) than every
declared input that exists; otherwise STALE. -/
def decide_freshness (fs : FSState) (ins outs : List String) : FreshnessVerdict :=
  if outs.all (artifact_current fs ins) then .current else .stale

theorem artifact_current_iff (fs : FSState) (ins : List String) (o : String) :
    artifact_current fs ins o = true ↔
      ∃ t, mtime fs o = some t ∧ ∀ i ∈ ins, ∀ ti, mtime fs i = some ti → ti ≤ t := by
  unfold artifact_current
  cases hmo : mtime fs o with
  | none => simp
  | some t =>
    simp only [List.all_eq_true, Option.some.injEq]
    constructor
    · intro h
      refine ⟨t, rfl, fun i hi ti hti => ?_⟩
      have := h i hi
      rw [hti] at this
      simpa using this
    · rintro ⟨t', rfl, hall⟩
      intro i hi
      cases hmi : mtime fs i with
      | none => simp
      | some ti => simpa using hall i hi ti hmi

theorem decide_freshness_eq_current_iff (fs : FSState) (ins outs : List String) :
    decide_freshness fs ins outs = .current ↔
      ((∀ o ∈ outs, ∃ t, mtime fs o = some t) ∧
        ∀ i ∈ ins, ∀ o ∈ outs, ∀ ti t,
          mtime fs i = some ti → mtime fs o = some t → ti ≤ t) := by
  unfold decide_freshness
  split
  case isTrue hall =>
    simp only [List.all_eq_true] at hall
    constructor
    · intro _
      constructor
      · intro o ho
        rcases (artifact_current_iff fs ins o).mp (hall o ho) with ⟨t, ht, -⟩
        exact ⟨t, ht⟩
      · intro i hi o ho ti t hti ht
        rcases (artifact_current_iff fs ins o).mp (hall o ho) with ⟨t', ht', h'⟩
        rw [ht] at ht'
        cases ht'
        exact h' i hi ti hti
    · intro _
      rfl
  case isFalse hall =>
    constructor
    · intro h
      exact absurd h (by simp)
    · rintro ⟨hex, hle⟩
      exfalso
      apply hall
      rw [List.all_eq_true]
      intro o ho
      rcases hex o ho with ⟨t, ht⟩
      exact (artifact_current_iff fs ins o).mpr
        ⟨t, ht, fun i hi ti hti => hle i hi o ho ti t hti ht⟩

/-- Modelled from the spec: the per-unit orchestration that `failsafe_run`
wraps around a step body (§4.3–§4.4): consult the freshness decision; when
CURRENT emit a SKIPPED record without invoking the body; otherwise invoke the
body inside the fault boundary, converting an error into a FAILED record
carrying its classified kind and message, and a normal return into a SUCCESS
record. -/
def run_unit (fs : FSState) (ins outs : List String)
    (body : FSState → Except StepError FSState)
    (subject : String) (session : Option String) : OutcomeRecord × FSState :=
  if decide_freshness fs ins outs = .current then
    ({ subject := subject, session := session, status := .skipped,
       errKind := none, message := none }, fs)
  else
    match body fs with
    | .ok fs' =>
        ({ subject := subject, session := session, status := .success,
           errKind := none, message := none }, fs')
    | .error e =>
        ({ subject := subject, session := session, status := .failed,
           errKind := some (classify e), message := some (errMessage e) }, fs)

/-- Modelled from the spec: the fault-isolating boundary of `failsafe_run`
(§4.4) on its own, seen from the caller: any step-body error is caught,
classified and converted into a FAILED record; a normal return yields a
SUCCESS record.  The result type says the rest: nothing is re-raised. -/
def failsafe_run (body : String → Option String → Except StepError (List String))
    (subject : String) (session : Option String) : OutcomeRecord :=
  match body subject session with
  | .ok _ =>
      { subject := subject, session := session, status := .success,
        errKind := none, message := none }
  | .error e =>
      { subject := subject, session := session, status := .failed,
        errKind := some (classify e), message := some (errMessage e) }

/-- The forward step's batch dispatch (`main` of _04_make_forward.py lines
189–203): every unit goes through the `failsafe_run`-wrapped body and one
record per unit is collected into the run log. -/
def forward_batch (body : String → Option String → Except StepError (List String))
    (units : List (String × Option String)) : List OutcomeRecord :=
  units.map fun u => failsafe_run body u.1 u.2

/-- Embedding of the epoching script's dispatch (04-make_epochs.py lines
102–103): `parallel(run_func(subject) for subject in config.subjects_list)`
with `n_jobs = 1` evaluates the bare `run_epochs` sequentially with no fault
boundary, so the first exception propagates to the caller and aborts the
batch — which is exactly `Except`-propagation of `mapM`. -/
def epochs_batch (body : String → Except StepError Unit)
    (subjects : List String) : Except StepError (List Unit) :=
  subjects.mapM body

/-! ## The epoching script's filesystem behaviour (04-make_epochs.py) -/

/-- Embedding of the per-run raw input filename of `run_epochs`
(04-make_epochs.py lines 36–43): with `use_maxwell_filter` the extension is
`run + '_sss_raw'`, otherwise `run + '_filt_raw'`, and
`base_fname.format(...)` gives `{subject}_Localizer{extension}.fif` inside
`meg_dir/subject`. -/
def epochs_raw_fname (subject run : String) : String :=
  meg_dir ++ "/" ++ subject ++ "/" ++ subject ++ "_" ++ study_name ++
    (if use_maxwell_filter then run ++ "_sss_raw" else run ++ "_filt_raw") ++ ".fif"

/-- Embedding of `eve_fname = op.splitext(raw_fname_in)[0] + '-eve.fif'`
(04-make_epochs.py line 44). -/
def epochs_eve_fname (subject run : String) : String :=
  meg_dir ++ "/" ++ subject ++ "/" ++ subject ++ "_" ++ study_name ++
    (if use_maxwell_filter then run ++ "_sss_raw" else run ++ "_filt_raw") ++ "-eve.fif"

/-- Embedding of the epochs output filename of `run_epochs`
(04-make_epochs.py lines 89–91): extension `-epo`. -/
def epochs_out_fname (subject : String) : String :=
  meg_dir ++ "/" ++ subject ++ "/" ++ subject ++ "_" ++ study_name ++ "-epo.fif"

/-- Embedding of the filesystem behaviour of `run_epochs` (04-make_epochs.py
lines 27–93): for each configured run the raw and events files are read
(`read_raw_fif` raises when a file is missing), then the epochs are
unconditionally recomputed and saved — the script has no freshness check and
no skip path.  `t` is the clock time of the write. -/
def run_epochs_fs (fs : FSState) (t : Nat) (subject : String) :
    Except StepError FSState :=
  if runs.all fun r =>
      (mtime fs (epochs_raw_fname subject r)).isSome &&
        (mtime fs (epochs_eve_fname subject r)).isSome then
    Except.ok (set_mtime fs (epochs_out_fname subject) t)
  else
    Except.error (StepError.missingInput subject)

/-! ## Claim C1 -/

/-- A step body for the epoching script that raises for subject SB02 and
succeeds for every other subject. -/
def epochs_failing_body : String → Except StepError Unit :=
  fun s => if s = "SB02" then Except.error (StepError.computation "corrupt data")
           else Except.ok ()

/-- Claim C1, counterexample: the epoching script has no fault-isolating
boundary — its dispatch (04-make_epochs.py lines 102–103) invokes the bare
step body, so when subject SB02's body raises in a three-subject batch the
error propagates to the caller and no per-unit record is produced, against
the claim that an error raised inside a step body is never re-raised and a
batch over N subjects still returns one record per unit. -/
theorem epochs_batch_reraises :
    epochs_batch epochs_failing_body ["SB01", "SB02", "SB03"] =
      Except.error (StepError.computation "corrupt data") := by
  decide

/-- A forward-step body that raises a missing-input error for subject SB02
and succeeds for every other subject. -/
def forward_failing_body : String → Option String → Except StepError (List String) :=
  fun s _ => if s = "SB02" then Except.error (StepError.missingInput "events file absent")
             else Except.ok ["fwd"]

/-- Claim C1 (amended): for a step body invoked through the `failsafe_run`
boundary — as the forward step is — any error raised inside the body is
caught, classified into an error kind and converted into a FAILED
OutcomeRecord carrying the unit's identity, never re-raised, and a batch over
N units still returns one record per unit; the epoching script invokes its
body without this boundary, so its errors propagate. -/
theorem failsafe_batch_isolates
    (body : String → Option String → Except StepError (List String))
    (units : List (String × Option String))
    (subject : String) (session : Option String) (e : StepError)
    (hmem : (subject, session) ∈ units)
    (hbody : body subject session = Except.error e) :
    (forward_batch body units).length = units.length ∧
      { subject := subject, session := session, status := Status.failed,
        errKind := some (classify e), message := some (errMessage e) } ∈
        forward_batch body units := by
  refine ⟨by simp [forward_batch], ?_⟩
  unfold forward_batch
  refine List.mem_map.mpr ⟨(subject, session), hmem, ?_⟩
  simp [failsafe_run, hbody]

/-- Concrete instantiation of `failsafe_batch_isolates`: a two-unit batch in
which SB02's body raises still yields two records, SB02's being FAILED with
the classified kind. -/
theorem failsafe_batch_isolates_witness :
    ("SB02", (none : Option String)) ∈
        [("SB01", (none : Option String)), ("SB02", none)] ∧
      forward_failing_body "SB02" none =
        Except.error (StepError.missingInput "events file absent") ∧
      ((forward_batch forward_failing_body [("SB01", none), ("SB02", none)]).length =
          [("SB01", (none : Option String)), ("SB02", none)].length ∧
        { subject := "SB02", session := none, status := Status.failed,
          errKind := some (classify (StepError.missingInput "events file absent")),
          message := some (errMessage (StepError.missingInput "events file absent")) } ∈
          forward_batch forward_failing_body [("SB01", none), ("SB02", none)]) :=
  ⟨by decide, by decide,
    failsafe_batch_isolates forward_failing_body _ "SB02" none _ (by decide) (by decide)⟩

/-! ## Claim C2 -/

/-- Claim C2: the cache/freshness decision returns CURRENT iff every declared
output artifact exists and is not older (by modification time) than every
declared input artifact that exists, and STALE otherwise; and whenever the
verdict is CURRENT the unit is skipped rather than re-executed — the step
body is not invoked and the filesystem is untouched, whatever the body. -/
theorem cache_decision_policy (fs : FSState) (ins outs : List String) :
    (decide_freshness fs ins outs = .current ↔
      ((∀ o ∈ outs, ∃ t, mtime fs o = some t) ∧
        ∀ i ∈ ins, ∀ o ∈ outs, ∀ ti t,
          mtime fs i = some ti → mtime fs o = some t → ti ≤ t)) ∧
    ∀ (body : FSState → Except StepError FSState) (s : String) (ss : Option String),
      decide_freshness fs ins outs = .current →
      run_unit fs ins outs body s ss =
        ({ subject := s, session := ss, status := .skipped,
           errKind := none, message := none }, fs) := by
  refine ⟨decide_freshness_eq_current_iff fs ins outs, ?_⟩
  intro body s ss h
  simp [run_unit, h]

/-- Concrete instantiation of `cache_decision_policy`: with the single output
present and no inputs the verdict is CURRENT and the unit is skipped with the
filesystem unchanged. -/
theorem cache_decision_policy_witness :
    decide_freshness [("epo", 5)] [] ["epo"] = .current ∧
      run_unit [("epo", 5)] [] ["epo"] (fun f => Except.ok f) "SB01" none =
        ({ subject := "SB01", session := none, status := .skipped,
           errKind := none, message := none }, [("epo", 5)]) :=
  ⟨by decide,
    (cache_decision_policy [("epo", 5)] [] ["epo"]).2 _ "SB01" none (by decide)⟩

/-! ## Claim C3 -/

/-- A filesystem holding subject SB01's raw and events inputs written at time
0, with no prior epochs output. -/
def epochs_fs0 : FSState :=
  [(epochs_raw_fname "SB01" "", 0), (epochs_eve_fname "SB01" "", 0)]

/-- The filesystem after the first epoching run writes its output at time 1. -/
def epochs_fs1 : FSState := set_mtime epochs_fs0 (epochs_out_fname "SB01") 1

/-- The filesystem after the second epoching run rewrites the output at time 2. -/
def epochs_fs2 : FSState := set_mtime epochs_fs1 (epochs_out_fname "SB01") 2

/-- Claim C3, counterexample: running the epoching step twice in succession
with no change to any input does not skip the second run — `run_epochs`
recomputes and rewrites the epochs artifact unconditionally (its mtime moves
from 1 to 2), against the claim that the second run yields a SKIPPED outcome
with no rewrite for every unit that succeeded on the first run. -/
theorem epochs_second_run_rewrites :
    run_epochs_fs epochs_fs0 1 "SB01" = Except.ok epochs_fs1 ∧
      run_epochs_fs epochs_fs1 2 "SB01" = Except.ok epochs_fs2 ∧
      mtime epochs_fs1 (epochs_out_fname "SB01") = some 1 ∧
      mtime epochs_fs2 (epochs_out_fname "SB01") = some 2 ∧
      epochs_fs2 ≠ epochs_fs1 := by
  decide

/-- Claim C3 (amended): for a step run through the orchestration boundary —
freshness decision plus fault-isolating runner, as the forward step is — a
unit that succeeded on a first run at clock `t1` (its body writing the
declared outputs at `t1`, the existing inputs being no newer than `t1`) is
SKIPPED on an immediately following run with no change to any file, whatever
body the second run would use, and the second run leaves the filesystem
untouched; the epoching script bypasses this boundary and rewrites
unconditionally. -/
theorem orchestrated_second_run_skips (fs : FSState) (ins outs : List String)
    (t1 : Nat) (s : String) (ss : Option String)
    (body2 : FSState → Except StepError FSState)
    (h_in : ∀ i ∈ ins, ∀ ti, mtime fs i = some ti → ti ≤ t1)
    (h1 : (run_unit fs ins outs
        (fun f => Except.ok (write_outputs f outs t1)) s ss).1.status = Status.success) :
    run_unit (run_unit fs ins outs
        (fun f => Except.ok (write_outputs f outs t1)) s ss).2 ins outs body2 s ss =
      ({ subject := s, session := ss, status := Status.skipped,
         errKind := none, message := none },
        (run_unit fs ins outs
          (fun f => Except.ok (write_outputs f outs t1)) s ss).2) := by
  by_cases hd : decide_freshness fs ins outs = .current
  · simp [run_unit, hd] at h1
  · have hfs2 : (run_unit fs ins outs
        (fun f => Except.ok (write_outputs f outs t1)) s ss).2 = write_outputs fs outs t1 := by
      simp [run_unit, hd]
    have hcur : decide_freshness (write_outputs fs outs t1) ins outs = .current := by
      apply (decide_freshness_eq_current_iff ..).mpr
      constructor
      · intro o ho
        exact ⟨t1, by rw [mtime_write_outputs, if_pos ho]⟩
      · intro i hi o ho ti t hti ht
        rw [mtime_write_outputs, if_pos ho] at ht
        cases ht
        rw [mtime_write_outputs] at hti
        by_cases hio : i ∈ outs
        · rw [if_pos hio] at hti
          cases hti
          exact le_refl _
        · rw [if_neg hio] at hti
          exact h_in i hi ti hti
    rw [hfs2]
    simp [run_unit, hcur]

/-- Concrete instantiation of `orchestrated_second_run_skips`: no inputs, one
missing output, first run writes it at time 1 and succeeds, second run is
skipped. -/
theorem orchestrated_second_run_skips_witness :
    (∀ i ∈ ([] : List String), ∀ ti, mtime [] i = some ti → ti ≤ 1) ∧
      (run_unit [] [] ["epo"]
        (fun f => Except.ok (write_outputs f ["epo"] 1)) "SB01" none).1.status =
        Status.success ∧
      run_unit (run_unit [] [] ["epo"]
          (fun f => Except.ok (write_outputs f ["epo"] 1)) "SB01" none).2
          [] ["epo"] (fun f => Except.ok f) "SB01" none =
        ({ subject := "SB01", session := none, status := Status.skipped,
           errKind := none, message := none },
          (run_unit [] [] ["epo"]
            (fun f => Except.ok (write_outputs f ["epo"] 1)) "SB01" none).2) :=
  ⟨by simp, by decide,
    orchestrated_second_run_skips [] [] ["epo"] 1 "SB01" none _ (by simp) (by decide)⟩

/-! ## Claim C4: unit enumeration -/

/-- Modelled from the spec: `config.get_subjects()` is called by the forward
step's `main` (_04_make_forward.py line 198) but is absent from the sources;
per spec §4.5 it yields the configured subject roster minus every explicitly
excluded subject, in stable roster order. -/
def get_subjects (subjects excl : List String) : List String :=
  subjects.filter fun s => decide (s ∉ excl)

/-- Embedding of the forward step's unit enumeration
(`itertools.product(config.get_subjects(), config.get_sessions())`,
_04_make_forward.py lines 196–200): subjects in roster order, each crossed
with the configured session list (`get_sessions`, absent from the sources, is
modelled per spec §4.5 as the configured session list, `[none]` for a
single-session study). -/
def forward_units (subjects excl : List String)
    (sessions : List (Option String)) : List (String × Option String) :=
  (get_subjects subjects excl).product sessions

/-- Embedding of the epoching script's unit enumeration (04-make_epochs.py
line 103): the bare `config.subjects_list`, with no session axis and no use
of `exclude_subjects`. -/
def epochs_units (subjects : List String) : List String := subjects

/-- Claim C4, counterexample: with roster `["SB01"]` and exclusion list
`["SB01"]` the epoching script still enumerates (hence executes) a work unit
for the excluded subject SB01, and its enumeration differs from the claimed
roster-minus-exclusions, because line 103 of 04-make_epochs.py iterates
`subjects_list` directly. -/
theorem epochs_units_ignore_exclusions :
    "SB01" ∈ epochs_units ["SB01"] ∧
      epochs_units ["SB01"] ≠ get_subjects ["SB01"] ["SB01"] := by
  decide

/-- Claim C4 (amended): the forward step's enumeration produces exactly the
cross product of the configured subject list minus every explicitly excluded
subject with the session list, in roster order, so no excluded subject gets a
forward work unit; the epoching script enumerates `subjects_list` itself,
ignoring `exclude_subjects` — excluded subjects stay unexecuted there only
because the shipped configuration has an empty `exclude_subjects`. -/
theorem forward_units_exact (subjects excl : List String)
    (sessions : List (Option String)) (s : String) (ss : Option String) :
    ((s, ss) ∈ forward_units subjects excl sessions ↔
      s ∈ subjects ∧ s ∉ excl ∧ ss ∈ sessions) ∧
    (s ∈ excl → ∀ ss', (s, ss') ∉ forward_units subjects excl sessions) ∧
    epochs_units subjects = subjects ∧
    (∀ x ∈ exclude_subjects, x ∉ epochs_units subjects_list) := by
  have h1 : ∀ (a : String) (b : Option String),
      (a, b) ∈ forward_units subjects excl sessions ↔
        a ∈ subjects ∧ a ∉ excl ∧ b ∈ sessions := by
    intro a b
    unfold forward_units get_subjects
    simp only [List.product, List.mem_flatMap, List.mem_map, List.mem_filter,
      decide_eq_true_eq, Prod.mk.injEq]
    constructor
    · rintro ⟨x, ⟨hx1, hx2⟩, b', hb', rfl, rfl⟩
      exact ⟨hx1, hx2, hb'⟩
    · rintro ⟨h1, h2, h3⟩
      exact ⟨a, ⟨h1, h2⟩, b, h3, rfl, rfl⟩
  refine ⟨h1 s ss, ?_, rfl, by simp [exclude_subjects]⟩
  intro hs ss' hmem
  exact ((h1 s ss').mp hmem).2.1 hs

/-- Concrete instantiation of `forward_units_exact`: the excluded subject
SB02 gets no forward unit. -/
theorem forward_units_exact_witness :
    ("SB02", (none : Option String)) ∉ forward_units ["SB01", "SB02"] ["SB02"] [none] :=
  (forward_units_exact ["SB01", "SB02"] ["SB02"] [none] "SB02" none).2.1 (by decide) none

/-! ## The forward step (_04_make_forward.py) -/

/-- A structural stand-in for `mne_bids.BIDSPath`: the entity fields a BIDS
path is built from ("/" assembly is irrelevant to the claims, the entities
decide the location). -/
structure BIDSPathSpec where
  subject : Option String := none
  session : Option String := none
  task : Option String := none
  acquisition : Option String := none
  run : Option String := none
  processing : Option String := none
  recording : Option String := none
  space : Option String := none
  suffix : Option String := none
  extension : Option String := none
  datatype : Option String := none
  root : String := ""
  deriving DecidableEq, Repr

/-- Embedding of the ConfigurationSnapshot built by `get_config`
(_04_make_forward.py lines 157–179): exactly the fields the builder copies.
The `rec` entity is named `recording` here because `rec` is reserved in
Lean. -/
structure Snapshot where
  task : Option String
  runs : List String
  datatype : String
  acq : Option String
  recording : Option String
  space : Option String
  mindist : Nat
  spacing : String
  use_template_mri : Option String
  adjust_coreg : Bool
  source_info_path_update : List (String × String)
  ch_types : List String
  fs_subject : String
  fs_subjects_dir : String
  deriv_root : String
  bids_root : String
  deriving DecidableEq, Repr

/-- The attributes of the `config` module that the forward step reads, taken
as one global state.  The getter helpers (`get_task`, `get_runs`,
`get_fs_subject`, …) are imported by the step but absent from the sources;
following spec §4.1 they are modelled as pure reads of the global settings
(per-subject for `get_runs`/`get_fs_subject`).  The module also carries
`mri_t1_path_generator` and `mri_landmarks_kind`, which `_prepare_trans`
reads directly (lines 49 and 61) without going through the snapshot. -/
structure GlobalConfig where
  task : Option String
  runs_of : Option String → List String
  datatype : String
  acq : Option String
  recording : Option String
  space : Option String
  mindist : Nat
  spacing : String
  use_template_mri : Option String
  adjust_coreg : Bool
  source_info_path_update : List (String × String)
  ch_types : List String
  fs_subject_of : Option String → String
  fs_subjects_dir : String
  deriv_root : String
  bids_root : String
  run_source_estimation : Bool
  mri_t1_path_generator : Option (BIDSPathSpec → BIDSPathSpec)
  mri_landmarks_kind : Option (Option String → Option String → String)

/-- Embedding of `get_config` (_04_make_forward.py lines 157–179).  The
`session` parameter exists in the source signature but is never read by the
body. -/
def get_config (g : GlobalConfig) (subject : Option String)
    (_session : Option String) : Snapshot :=
  { task := g.task
    runs := g.runs_of subject
    datatype := g.datatype
    acq := g.acq
    recording := g.recording
    space := g.space
    mindist := g.mindist
    spacing := g.spacing
    use_template_mri := g.use_template_mri
    adjust_coreg := g.adjust_coreg
    source_info_path_update := g.source_info_path_update
    ch_types := g.ch_types
    fs_subject := g.fs_subject_of subject
    fs_subjects_dir := g.fs_subjects_dir
    deriv_root := g.deriv_root
    bids_root := g.bids_root }

/-- The BIDSPath both `get_input_fnames_forward` and `run_forward` construct
(lines 85–95 and 108–118). -/
def forward_bids_path (cfg : Snapshot) (subject session : Option String) :
    BIDSPathSpec :=
  { subject := subject
    session := session
    task := cfg.task
    acquisition := cfg.acq
    run := none
    recording := cfg.recording
    space := cfg.space
    extension := some ".fif"
    datatype := some cfg.datatype
    root := cfg.deriv_root }

/-- One `BIDSPath.update(key=value)` assignment, for the keys a
`source_info_path_update` dictionary can carry. -/
def update_entity (p : BIDSPathSpec) (kv : String × String) : BIDSPathSpec :=
  match kv.1 with
  | "subject" => { p with subject := some kv.2 }
  | "session" => { p with session := some kv.2 }
  | "task" => { p with task := some kv.2 }
  | "acquisition" => { p with acquisition := some kv.2 }
  | "run" => { p with run := some kv.2 }
  | "processing" => { p with processing := some kv.2 }
  | "recording" => { p with recording := some kv.2 }
  | "space" => { p with space := some kv.2 }
  | "suffix" => { p with suffix := some kv.2 }
  | "extension" => { p with extension := some kv.2 }
  | "datatype" => { p with datatype := some kv.2 }
  | _ => p

/-- `bids_path.copy().update(**updates)` over a keyword dictionary, applied
in insertion order. -/
def update_entities (p : BIDSPathSpec) (ups : List (String × String)) :
    BIDSPathSpec :=
  ups.foldl update_entity p

/-- Modelled from the spec: `_get_bem_conductivity` is imported by the
forward step (line 16) but absent from the sources and undescribed by the
spec; the claims need only that it is a deterministic function of the
snapshot.  It is modelled after the standard MNE convention: a three-layer
BEM (tag `5120-5120-5120`) when EEG is among the channel types, a
single-layer one (tag `5120`) otherwise; the first component counts the
layers. -/
def _get_bem_conductivity (cfg : Snapshot) : Nat × String :=
  if "eeg" ∈ cfg.ch_types then (3, "5120-5120-5120") else (1, "5120")

/-- An input artifact location: a BIDS path in the derivatives tree, or a
plain filename in the FreeSurfer subjects tree. -/
inductive InFile
  | bids (p : BIDSPathSpec)
  | fsFile (p : String)
  deriving DecidableEq, Repr

/-- Embedding of `get_input_fnames_forward` (lines 84–102): the mapping of
logical input names to locations — `info` from the derivatives BIDS path with
`source_info_path_update` applied, `bem` and `src` under the FreeSurfer
subject's `bem` folder.  The source builds paths only: no existence check, no
filesystem read, no write. -/
def get_input_fnames_forward (cfg : Snapshot) (subject session : Option String) :
    List (String × InFile) :=
  let bids_path := forward_bids_path cfg subject session
  let bem_path := cfg.fs_subjects_dir ++ "/" ++ cfg.fs_subject ++ "/bem"
  let tag := (_get_bem_conductivity cfg).2
  [("info", InFile.bids (update_entities bids_path cfg.source_info_path_update)),
   ("bem", InFile.fsFile (bem_path ++ "/" ++ cfg.fs_subject ++ "-" ++ tag ++ "-bem-sol.fif")),
   ("src", InFile.fsFile (bem_path ++ "/" ++ cfg.fs_subject ++ "-" ++ cfg.spacing ++ "-src.fif"))]

/-- The arguments the step passes to the external `get_head_mri_trans`
(lines 72–79): the observable of that call. -/
structure TransRequest where
  raw_path : BIDSPathSpec
  t1_bids_path : Option BIDSPathSpec
  fs_subject : String
  fs_subjects_dir : String
  landmarks_kind : Option String
  deriving DecidableEq, Repr

/-- What trans preparation observably does: use a precomputed trans file,
fit a fiducial coregistration against the template, call the external
`get_head_mri_trans`, or raise. -/
inductive TransResult
  | transFile (p : String)
  | coregFit (fs_subject fs_subjects_dir : String)
  | headMriCall (r : TransRequest)
  | assertionFailure
  | valueErr (msg : String)
  deriving DecidableEq, Repr

/-- Embedding of `_prepare_trans_template` (lines 22–40): the template-MRI
branch.  The entry assertion `cfg.use_template_mri == cfg.fs_subject` fails
as an AssertionError when violated; a non-fsaverage template without
`adjust_coreg` raises the ValueError; fsaverage without `adjust_coreg` uses
the precomputed trans file under `fs_subjects_dir`; otherwise a
`Coregistration` is fitted on estimated fiducials. -/
def _prepare_trans_template (cfg : Snapshot) : TransResult :=
  if cfg.use_template_mri ≠ some cfg.fs_subject then .assertionFailure
  else if cfg.fs_subject ≠ "fsaverage" ∧ cfg.adjust_coreg = false then
    .valueErr "Adjusting the coregistration is mandatory when using a template MRI different from fsaverage"
  else if cfg.fs_subject = "fsaverage" ∧ cfg.adjust_coreg = false then
    .transFile (cfg.fs_subjects_dir ++ "/" ++ cfg.fs_subject ++ "/bem/" ++
      cfg.fs_subject ++ "-trans.fif")
  else
    .coregFit cfg.fs_subject cfg.fs_subjects_dir

/-- Embedding of `_prepare_trans` (lines 43–81): the arguments of the
external `get_head_mri_trans` call, with the T1 path and landmarks kind taken
from the module-level `config.mri_t1_path_generator` and
`config.mri_landmarks_kind` (lines 49–66) — not from the snapshot.  The
subscript `cfg.runs[0]` is modelled as the optional head of the list. -/
def _prepare_trans (g : GlobalConfig) (cfg : Snapshot)
    (bids_path : BIDSPathSpec) : TransRequest :=
  let subject := bids_path.subject
  let session := bids_path.session
  let t1_bids_path : Option BIDSPathSpec :=
    match g.mri_t1_path_generator with
    | none => none
    | some gen =>
        let p := gen { subject := subject, session := session, root := cfg.bids_root }
        let p1 := if p.suffix = none then { p with suffix := some "T1w" } else p
        if p1.datatype = none then some { p1 with datatype := some "anat" } else some p1
  let landmarks_kind : Option String :=
    match g.mri_landmarks_kind with
    | none => none
    | some f => some (f subject session)
  { raw_path :=
      { bids_path with run := cfg.runs.get? 0, root := cfg.bids_root, extension := none }
    t1_bids_path := t1_bids_path
    fs_subject := cfg.fs_subject
    fs_subjects_dir := cfg.fs_subjects_dir
    landmarks_kind := landmarks_kind }

/-- Modelled from the spec: `_meg_in_ch_types` is imported by the forward
step (line 17) but absent from the sources; it reports whether any MEG
channel type (`meg`, `mag`, `grad`) is among the configured channel types,
for the `meg=` argument of the channel pick. -/
def _meg_in_ch_types (chs : List String) : Bool :=
  chs.any fun c => c == "meg" || c == "mag" || c == "grad"

/-- The behaviour observable of `run_forward` (lines 107–154): the inputs it
consumes, the channel picks it makes, the trans it prepares (through the
template branch when `cfg.use_template_mri` is set, otherwise through
`_prepare_trans` with its module-level reads), the `mindist` handed to the
external `make_forward_solution`, and the output paths it writes. -/
structure ForwardRun where
  in_files : List (String × InFile)
  meg_pick : Bool
  eeg_pick : Bool
  trans : TransResult
  mindist : Nat
  out_trans : BIDSPathSpec
  out_forward : BIDSPathSpec
  deriving DecidableEq, Repr

/-- Embedding of the observable behaviour of `run_forward` (lines 107–154)
as a function of the global config state, the snapshot and the unit. -/
def run_forward_observable (g : GlobalConfig) (cfg : Snapshot)
    (subject session : Option String) : ForwardRun :=
  let bids_path := forward_bids_path cfg subject session
  { in_files := get_input_fnames_forward cfg subject session
    meg_pick := _meg_in_ch_types cfg.ch_types
    eeg_pick := decide ("eeg" ∈ cfg.ch_types)
    trans :=
      match cfg.use_template_mri with
      | some _ => _prepare_trans_template cfg
      | none => TransResult.headMriCall (_prepare_trans g cfg bids_path)
    mindist := cfg.mindist
    out_trans := { bids_path with suffix := some "trans" }
    out_forward := { bids_path with suffix := some "fwd" } }

/-! ## Claim C5 -/

/-- A baseline global configuration for the forward step, mirroring the
shipped study settings. -/
def base_global : GlobalConfig :=
  { task := some "Localizer"
    runs_of := fun _ => [""]
    datatype := "meg"
    acq := none
    recording := none
    space := none
    mindist := 5
    spacing := "oct6"
    use_template_mri := none
    adjust_coreg := false
    source_info_path_update := [("suffix", "raw"), ("processing", "clean")]
    ch_types := ["meg"]
    fs_subject_of := fun s => s.getD ""
    fs_subjects_dir := "data/subjects"
    deriv_root := "data/derivatives"
    bids_root := "data"
    run_source_estimation := true
    mri_t1_path_generator := none
    mri_landmarks_kind := none }

/-- The baseline with a different module-level `mri_landmarks_kind`; every
parameter the snapshot builder copies is untouched. -/
def base_global_alt : GlobalConfig :=
  { base_global with mri_landmarks_kind := some fun _ _ => "fiducials" }

/-- Claim C5, counterexample: two global configuration states that build
identical snapshots for subject SB01 (and identical resolved inputs) but make
the forward step body behave differently, because `_prepare_trans` reads the
module-level `config.mri_landmarks_kind` (line 61) which `get_config` does
not copy — the snapshot does not hold every parameter the step body reads. -/
theorem snapshot_misses_mri_globals :
    get_config base_global (some "SB01") none =
        get_config base_global_alt (some "SB01") none ∧
      run_forward_observable base_global
          (get_config base_global (some "SB01") none) (some "SB01") none ≠
        run_forward_observable base_global_alt
          (get_config base_global_alt (some "SB01") none) (some "SB01") none := by
  exact ⟨rfl, by decide⟩

/-- Claim C5 (amended): the snapshot holds every parameter the forward step
body reads except the module-level `mri_t1_path_generator` and
`mri_landmarks_kind` consumed by `_prepare_trans`; equal snapshots give equal
behaviour whenever the template-MRI branch is taken, and in general whenever
the two global states also agree on those two module-level values. -/
theorem snapshot_purity_amended (g1 g2 : GlobalConfig)
    (subject session : Option String)
    (hsnap : get_config g1 subject session = get_config g2 subject session) :
    ((get_config g1 subject session).use_template_mri.isSome →
      run_forward_observable g1 (get_config g1 subject session) subject session =
        run_forward_observable g2 (get_config g2 subject session) subject session) ∧
    (g1.mri_t1_path_generator = g2.mri_t1_path_generator →
      g1.mri_landmarks_kind = g2.mri_landmarks_kind →
      run_forward_observable g1 (get_config g1 subject session) subject session =
        run_forward_observable g2 (get_config g2 subject session) subject session) := by
  constructor
  · intro htmpl
    rw [hsnap] at htmpl ⊢
    cases hu : (get_config g2 subject session).use_template_mri with
    | none => rw [hu] at htmpl; exact absurd htmpl (by simp)
    | some t => unfold run_forward_observable; rw [hu]
  · intro ht hl
    rw [hsnap]
    cases hu : (get_config g2 subject session).use_template_mri with
    | none =>
        unfold run_forward_observable
        rw [hu]
        unfold _prepare_trans
        rw [ht, hl]
    | some t => unfold run_forward_observable; rw [hu]

/-- A template-MRI global configuration (fsaverage, no coregistration
adjustment). -/
def template_global : GlobalConfig :=
  { base_global with
      use_template_mri := some "fsaverage"
      fs_subject_of := fun _ => "fsaverage" }

/-- The template-MRI global with the problematic module-level
`mri_landmarks_kind` changed. -/
def template_global_alt : GlobalConfig :=
  { template_global with mri_landmarks_kind := some fun _ _ => "fiducials" }

/-- Concrete instantiation of `snapshot_purity_amended`: under the
template-MRI branch the step's behaviour is immune to the module-level MRI
globals. -/
theorem snapshot_purity_amended_witness :
    (get_config template_global (some "SB01") none).use_template_mri.isSome = true ∧
      run_forward_observable template_global
          (get_config template_global (some "SB01") none) (some "SB01") none =
        run_forward_observable template_global_alt
          (get_config template_global_alt (some "SB01") none) (some "SB01") none :=
  ⟨by decide,
    (snapshot_purity_amended template_global template_global_alt
      (some "SB01") none rfl).1 (by decide)⟩

/-! ## Claim C6 -/

/-- Claim C6: input resolution for the forward step is a deterministic,
side-effect-free function of the configuration snapshot alone: the result is
fully determined by the snapshot fields the resolver reads — two snapshots
agreeing on those fields resolve to the same mapping for the same unit,
whatever their other fields — and the embedding takes no filesystem state
because the source builds paths without any existence check or other I/O. -/
theorem forward_input_resolution_deterministic (cfg1 cfg2 : Snapshot)
    (subject session : Option String)
    (h1 : cfg1.task = cfg2.task) (h2 : cfg1.acq = cfg2.acq)
    (h3 : cfg1.recording = cfg2.recording) (h4 : cfg1.space = cfg2.space)
    (h5 : cfg1.datatype = cfg2.datatype) (h6 : cfg1.deriv_root = cfg2.deriv_root)
    (h7 : cfg1.source_info_path_update = cfg2.source_info_path_update)
    (h8 : cfg1.fs_subjects_dir = cfg2.fs_subjects_dir)
    (h9 : cfg1.fs_subject = cfg2.fs_subject)
    (h10 : cfg1.ch_types = cfg2.ch_types) (h11 : cfg1.spacing = cfg2.spacing) :
    get_input_fnames_forward cfg1 subject session =
      get_input_fnames_forward cfg2 subject session := by
  unfold get_input_fnames_forward forward_bids_path _get_bem_conductivity
  rw [h1, h2, h3, h4, h5, h6, h7, h8, h9, h10, h11]

/-- The snapshot `get_config` builds from the baseline globals for SB01. -/
def base_snapshot : Snapshot := get_config base_global (some "SB01") none

/-- Concrete instantiation of `forward_input_resolution_deterministic`: a
snapshot differing in fields the resolver does not read (`mindist`,
`adjust_coreg`, `runs`) resolves to the same inputs. -/
theorem forward_input_resolution_deterministic_witness :
    get_input_fnames_forward base_snapshot (some "SB01") none =
      get_input_fnames_forward
        { base_snapshot with mindist := 99, adjust_coreg := true, runs := ["run01"] }
        (some "SB01") none :=
  forward_input_resolution_deterministic _ _ (some "SB01") none
    rfl rfl rfl rfl rfl rfl rfl rfl rfl rfl rfl

/-! ## Claim C10 -/

/-- Claim C10: in the forward step's template branch, a set
`cfg.use_template_mri` differing from `cfg.fs_subject` fails the entry
assertion; with the assertion satisfied, a non-fsaverage `fs_subject` without
`adjust_coreg` raises the ValueError; and fsaverage without `adjust_coreg`
uses the precomputed trans file under `fs_subjects_dir` without fitting any
coregistration. -/
theorem prepare_trans_template_cases (cfg : Snapshot) :
    (∀ t, cfg.use_template_mri = some t → t ≠ cfg.fs_subject →
      _prepare_trans_template cfg = .assertionFailure) ∧
    (cfg.use_template_mri = some cfg.fs_subject → cfg.fs_subject ≠ "fsaverage" →
      cfg.adjust_coreg = false →
      _prepare_trans_template cfg = .valueErr
        "Adjusting the coregistration is mandatory when using a template MRI different from fsaverage") ∧
    (cfg.use_template_mri = some cfg.fs_subject → cfg.fs_subject = "fsaverage" →
      cfg.adjust_coreg = false →
      _prepare_trans_template cfg = .transFile
        (cfg.fs_subjects_dir ++ "/" ++ cfg.fs_subject ++ "/bem/" ++
          cfg.fs_subject ++ "-trans.fif")) := by
  refine ⟨?_, ?_, ?_⟩
  · intro t ht hne
    unfold _prepare_trans_template
    rw [if_pos (by simp [ht, hne])]
  · intro heq hne hadj
    unfold _prepare_trans_template
    rw [if_neg (by simp [heq]), if_pos ⟨hne, hadj⟩]
  · intro heq hfs hadj
    unfold _prepare_trans_template
    rw [if_neg (by simp [heq]), if_neg (by simp [hfs]), if_pos ⟨hfs, hadj⟩]

/-- A template snapshot whose `use_template_mri` disagrees with
`fs_subject`. -/
def snapshotA : Snapshot :=
  { task := none
    runs := [""]
    datatype := "meg"
    acq := none
    recording := none
    space := none
    mindist := 5
    spacing := "oct6"
    use_template_mri := some "custom"
    adjust_coreg := false
    source_info_path_update := []
    ch_types := ["meg"]
    fs_subject := "other"
    fs_subjects_dir := "data/subjects"
    deriv_root := "data/derivatives"
    bids_root := "data" }

/-- A non-fsaverage template snapshot with `adjust_coreg` off. -/
def snapshotB : Snapshot := { snapshotA with fs_subject := "custom" }

/-- The fsaverage template snapshot with `adjust_coreg` off. -/
def snapshotC : Snapshot :=
  { snapshotA with use_template_mri := some "fsaverage", fs_subject := "fsaverage" }

/-- Concrete instantiation of `prepare_trans_template_cases` on the three
branches. -/
theorem prepare_trans_template_cases_witness :
    _prepare_trans_template snapshotA = .assertionFailure ∧
      _prepare_trans_template snapshotB = .valueErr
        "Adjusting the coregistration is mandatory when using a template MRI different from fsaverage" ∧
      _prepare_trans_template snapshotC = .transFile
        (snapshotC.fs_subjects_dir ++ "/" ++ snapshotC.fs_subject ++ "/bem/" ++
          snapshotC.fs_subject ++ "-trans.fif") :=
  ⟨(prepare_trans_template_cases snapshotA).1 "custom" rfl (by decide),
    (prepare_trans_template_cases snapshotB).2.1 rfl (by decide) rfl,
    (prepare_trans_template_cases snapshotC).2.2 rfl rfl rfl⟩

end MBP
